import Mathlib

/-!
Shallow embedding of the SolarPal battery-scheduling core:
  src/modules/grid_physics.py   (GridConstraintChecker)
  src/modules/optimization.py   (BatteryOptimizer, calculate_baseline_cost)
  src/modules/degradation.py    (BatteryDegradationModel)
Python floats are modelled by exact rationals; the state-of-charge
dynamics row of the LP uses sqrt(efficiency), so the LP-level model
lives over the reals.  Fallible numpy operations (np.max on an empty
array, out-of-range indexing) are modelled with Except.
-/

namespace SolarPal

/-- Python exceptions that the embedded code paths can raise.
`validationError` is included so that the spec's claimed error class is
expressible; no code path in the repository constructs it. -/
inductive PyError where
  | indexError
  | valueError
  | validationError
  | runtimeError
  deriving DecidableEq, Repr

/-! ## grid_physics.py -/

/-- GridViolation dataclass (grid_physics.py lines 13-22).  The
`time_label` string `f"{hour:02d}:{minute:02d}"` is modelled as the
pair (hour, minute). -/
structure GridViolation where
  timestep : ℕ
  time_label : ℤ × ℤ
  net_export_kw : ℚ
  limit_kw : ℚ
  excess_kw : ℚ
  voltage_rise_pct : ℚ
  severity : String
  deriving DecidableEq, Repr

/-- One violation record as built in the loop body of
`check_violations` (grid_physics.py lines 66-86): voltage rise
`(export*1000*R)/V`, as percent of nominal `/V*100`, excess over the
limit, severity threshold 0.5 kW, time label from
`(t*timestep_minutes)//60` and `% 60`. -/
def mkGridViolation (grid_limit R_line V_nom : ℚ) (timestep_minutes : ℤ)
    (t : ℕ) (e : ℚ) : GridViolation :=
  { timestep := t
    time_label := (((t : ℤ) * timestep_minutes) / 60, ((t : ℤ) * timestep_minutes) % 60)
    net_export_kw := e
    limit_kw := grid_limit
    excess_kw := e - grid_limit
    voltage_rise_pct := e * 1000 * R_line / V_nom / V_nom * 100
    severity := if e - grid_limit > 1/2 then "critical" else "warning" }

/-- The `for t, export in enumerate(export_array)` loop of
`check_violations` (grid_physics.py lines 65-86), with the running
index made explicit: a violation is appended exactly when
`export > self.grid_limit`. -/
def buildViolations (grid_limit R_line V_nom : ℚ) (timestep_minutes : ℤ) :
    ℕ → List ℚ → List GridViolation
  | _, [] => []
  | t, e :: rest =>
      (if e > grid_limit then [mkGridViolation grid_limit R_line V_nom timestep_minutes t e]
       else [])
        ++ buildViolations grid_limit R_line V_nom timestep_minutes (t + 1) rest

/-- np.max over a list: raises ValueError on a zero-size array
("reduction operation maximum which has no identity"). -/
def npMax : List ℚ → Except PyError ℚ
  | [] => .error .valueError
  | x :: xs => .ok (xs.foldl max x)

/-- np.clip(x, lo, hi). -/
def npClip (x lo hi : ℚ) : ℚ := min (max x lo) hi

/-- The dictionary returned by `check_violations`
(grid_physics.py lines 96-104). -/
structure GridReport where
  violations : List GridViolation
  violation_count : ℕ
  max_voltage_rise_V : ℚ
  max_voltage_rise_pct : ℚ
  peak_grid_stress : ℚ
  times_at_limit : ℕ
  g99_compliant : Bool
  deriving DecidableEq, Repr

/-- GridConstraintChecker.check_violations (grid_physics.py lines
51-104).  The checker's constructor fields `grid_export_limit_kw`,
`line_resistance_ohm`, `nominal_voltage_v` are passed explicitly
(defaults 4.0, 0.075 = 3/40, 230).  `0.95` is the exact literal 95/100.
The three np.max reductions raise ValueError when the input list is
empty. -/
def check_violations (grid_limit R_line V_nom : ℚ) (grid_export_kw : List ℚ)
    (timestep_minutes : ℤ) : Except PyError GridReport := do
  let violations := buildViolations grid_limit R_line V_nom timestep_minutes 0 grid_export_kw
  let export_pos := grid_export_kw.map (fun e => max 0 e)
  let vRiseAll := export_pos.map (fun e => e * 1000 * R_line / V_nom)
  let vRisePctAll := vRiseAll.map (fun v => v / V_nom * 100)
  let gridStress := export_pos.map (fun e => npClip (e / grid_limit) 0 1)
  let maxV ← npMax vRiseAll
  let maxVPct ← npMax vRisePctAll
  let maxStress ← npMax gridStress
  pure
    { violations := violations
      violation_count := violations.length
      max_voltage_rise_V := maxV
      max_voltage_rise_pct := maxVPct
      peak_grid_stress := maxStress
      times_at_limit := export_pos.countP (fun e => decide (e > grid_limit * (95/100)))
      g99_compliant := violations.length == 0 && decide (maxVPct < 10) }

/-! ## optimization.py : pre-solve phase -/

/-- BatteryAsset dataclass (optimization.py lines 16-22). -/
structure BatteryAsset where
  capacity_kwh : ℚ
  power_kw : ℚ
  efficiency : ℚ
  initial_soc_pct : ℚ
  deriving DecidableEq, Repr

/-- The data `optimize` hands to scipy.optimize.linprog, as far as it
is needed by the claims: the objective vector and the right-hand sides
it computes from the inputs (optimization.py lines 115-188). -/
structure PreparedLP where
  horizon : ℕ
  objective : List ℚ
  power_bounds : List ℚ
  capacity_bounds : List ℚ
  grid_bounds : List ℚ
  soc_init_rhs : ℚ
  deriving DecidableEq, Repr

/-- Objective construction (optimization.py lines 115-122):
`c[t] = (price[t] + deg) * dt`, `c[N+t] = -(price[t] - deg) * dt`,
soc coefficients zero.  `price[t]` raises IndexError when
`t >= len(price)`, i.e. when the price series is shorter than solar. -/
def build_objective (price : List ℚ) (degradation_cost_gbp_kwh timestep_hours : ℚ)
    (N : ℕ) : Except PyError (List ℚ) :=
  if N ≤ price.length then
    .ok ((List.range N).map (fun t => (price.getD t 0 + degradation_cost_gbp_kwh) * timestep_hours)
      ++ (List.range N).map (fun t => -(price.getD t 0 - degradation_cost_gbp_kwh) * timestep_hours)
      ++ List.replicate (N + 1) 0)
  else .error .indexError

/-- Grid-export right-hand sides (optimization.py lines 150-156):
`grid_export_limit_kw - (solar[t] - load[t])` for `t < N`; `load[t]`
raises IndexError when the load series is shorter than solar. -/
def build_grid_bounds (solar load : List ℚ) (grid_export_limit_kw : ℚ)
    (N : ℕ) : Except PyError (List ℚ) :=
  if N ≤ load.length then
    .ok ((List.range N).map (fun t => grid_export_limit_kw - (solar.getD t 0 - load.getD t 0)))
  else .error .indexError

/-- The whole of `BatteryOptimizer.optimize` before the `linprog` call
(optimization.py lines 104-199): `N = len(solar_kw)`, objective built
first (indexes price), then power bounds, capacity bounds, grid bounds
(indexes load), the dynamics rows and the initial-SoC right-hand side
`(initial_soc_pct / 100) * capacity_kwh`.  A returned `.ok` value
means control reaches the solver invocation; the function performs no
validation of lengths or of the asset fields. -/
def pre_solve (asset : BatteryAsset) (solar_kw load_kw price_gbp_kwh : List ℚ)
    (grid_export_limit_kw degradation_cost_gbp_kwh timestep_hours : ℚ) :
    Except PyError PreparedLP := do
  let N := solar_kw.length
  let c ← build_objective price_gbp_kwh degradation_cost_gbp_kwh timestep_hours N
  let gb ← build_grid_bounds solar_kw load_kw grid_export_limit_kw N
  pure
    { horizon := N
      objective := c
      power_bounds := List.replicate (2 * N) asset.power_kw
      capacity_bounds := List.replicate (N + 1) asset.capacity_kwh
      grid_bounds := gb
      soc_init_rhs := asset.initial_soc_pct / 100 * asset.capacity_kwh }

/-! ## optimization.py : Sharpe ratio and post-solve extraction -/

/-- np.mean of a list (np.mean of an empty array is never reached:
the caller guards on length first). -/
def np_mean (l : List ℚ) : ℚ := l.sum / l.length

/-- Population variance, so that np.std l = sqrt (np_var l). -/
def np_var (l : List ℚ) : ℚ := (l.map (fun x => (x - np_mean l) ^ 2)).sum / l.length

/-- np.std of a list: square root of the population variance. -/
noncomputable def np_std (l : List ℚ) : ℝ := Real.sqrt (np_var l)

/-- BatteryOptimizer._calculate_sharpe (optimization.py lines 243-255):
`returns = discharge * price` elementwise (numpy requires equal
lengths; zipWith agrees on that domain); result 0 when the series is
empty or its standard deviation is zero, else mean/std.  The guard
`np.std(returns) == 0` is expressed by the equivalent decidable test
`np_var returns = 0` (the variance is nonnegative and its square root
vanishes exactly when it does). -/
noncomputable def calculate_sharpe (discharge price : List ℚ) : ℝ :=
  let returns := List.zipWith (fun a b => a * b) discharge price
  if returns.length = 0 ∨ np_var returns = 0 then 0
  else (np_mean returns : ℝ) / np_std returns

/-- The slice `soc_kwh = x[2*N : 2*N+N]` followed by
`soc_pct = soc_kwh / capacity * 100` (optimization.py lines 210-211).
Note the slice takes N entries, not the N+1 SoC variables of the
decision vector. -/
def soc_slice_pct (x : ℕ → ℚ) (N : ℕ) (capacity_kwh : ℚ) : List ℚ :=
  (List.range N).map (fun t => x (2 * N + t) / capacity_kwh * 100)

/-- `grid_export = solar - load + discharge - charge`
(optimization.py line 213). -/
def grid_export_list (solar load : List ℚ) (x : ℕ → ℚ) (N : ℕ) : List ℚ :=
  (List.range N).map (fun t => solar.getD t 0 - load.getD t 0 + x (N + t) - x t)

/-- np.min of a list; np.min raises on a zero-size array, and the
extraction code only runs it on the N-element SoC slice of a
successful solve, so the empty case is given the junk value 0. -/
def np_min_list : List ℚ → ℚ
  | [] => 0
  | x :: xs => xs.foldl min x

/-- OptimizationResult dataclass (optimization.py lines 25-45). -/
structure OptimizationResult where
  charge_schedule_kw : List ℚ
  discharge_schedule_kw : List ℚ
  soc_trajectory_pct : List ℚ
  grid_export_kw : List ℚ
  revenue_gbp : ℚ
  cost_gbp : ℚ
  net_profit_gbp : ℚ
  sharpe_ratio : ℝ
  max_drawdown_pct : ℚ
  utilization_factor : ℚ
  solver_status : String
  solve_time_ms : ℚ

/-- The post-solve tail of `BatteryOptimizer.optimize`
(optimization.py lines 201-241), as a function of the inputs, the
solver's solution vector `x` and status message, and the two
`time.time()` readings taken at entry and after the solve.
`charge = x[:N]`, `discharge = x[N:2N]`, SoC slice and grid export as
above; `cost`/`revenue` sum the negative/positive parts of grid export
times price times dt; `max_drawdown = 100 - min(soc_pct)`;
`utilization = sum(discharge) * dt / capacity`;
`solve_time_ms = (end - start) * 1000`. -/
noncomputable def build_result (asset : BatteryAsset) (solar load price : List ℚ)
    (timestep_hours : ℚ) (x : ℕ → ℚ) (message : String)
    (start_time end_time : ℚ) : OptimizationResult :=
  let N := solar.length
  let discharge := (List.range N).map (fun t => x (N + t))
  let soc_pct := soc_slice_pct x N asset.capacity_kwh
  let ge := grid_export_list solar load x N
  { charge_schedule_kw := (List.range N).map x
    discharge_schedule_kw := discharge
    soc_trajectory_pct := soc_pct
    grid_export_kw := ge
    revenue_gbp := ((List.range N).map
      (fun t => max 0 (ge.getD t 0) * price.getD t 0 * timestep_hours)).sum
    cost_gbp := ((List.range N).map
      (fun t => max 0 (-(ge.getD t 0)) * price.getD t 0 * timestep_hours)).sum
    net_profit_gbp := ((List.range N).map
        (fun t => max 0 (ge.getD t 0) * price.getD t 0 * timestep_hours)).sum
      - ((List.range N).map
        (fun t => max 0 (-(ge.getD t 0)) * price.getD t 0 * timestep_hours)).sum
    sharpe_ratio := calculate_sharpe discharge price
    max_drawdown_pct := 100 - np_min_list soc_pct
    utilization_factor := discharge.sum * timestep_hours / asset.capacity_kwh
    solver_status := message
    solve_time_ms := (end_time - start_time) * 1000 }

/-! ## degradation.py -/

/-- Cost per full cycle computed in BatteryDegradationModel.__init__
(degradation.py lines 22-36): `retention = capacity_retention_pct/100`,
`cost_per_cycle = replacement_cost * (1 - retention) / warranty_cycles`. -/
def degradation_cost_per_cycle (replacement_cost_gbp capacity_retention_pct
    warranty_cycles : ℚ) : ℚ :=
  replacement_cost_gbp * (1 - capacity_retention_pct / 100) / warranty_cycles

/-- BatteryDegradationModel.calculate_degradation_cost (degradation.py
lines 38-59): depth of discharge `discharge*dt/capacity` per timestep,
quadratic penalty, scaled by the per-cycle cost from __init__. -/
def calculate_degradation_cost (battery_capacity_kwh warranty_cycles
    replacement_cost_gbp capacity_retention_pct : ℚ)
    (discharge_kw : List ℚ) (timestep_hours : ℚ) : ℚ :=
  ((discharge_kw.map (fun k => (k * timestep_hours / battery_capacity_kwh) ^ 2)).sum)
    * degradation_cost_per_cycle replacement_cost_gbp capacity_retention_pct warranty_cycles

/-- BatteryDegradationModel.calculate_cycle_count (degradation.py
lines 61-69): `sum(discharge) * dt / capacity`. -/
def calculate_cycle_count (battery_capacity_kwh : ℚ) (discharge_kw : List ℚ)
    (timestep_hours : ℚ) : ℚ :=
  discharge_kw.sum * timestep_hours / battery_capacity_kwh

/-! ## The LP handed to the solver

scipy.optimize.linprog itself is outside the repository; following the
spec (ScheduleOptimizer, "delegate to a general-purpose LP solver"),
the solver is modelled as returning an optimal feasible point of the
problem that `optimize` constructs.  The feasible set and objective
below transcribe the constraint rows of optimization.py lines 115-199
on the decision vector `x = [charge_0..N-1, discharge_0..N-1,
soc_0..N]`; the dynamics row uses `sqrt(efficiency)`, hence lives
over ℝ. -/

/-- Feasibility of a decision vector for the LP built by `optimize`:
power bounds, capacity bounds, grid-export bound
`discharge[t] - charge[t] <= limit - (solar[t] - load[t])`, SoC
dynamics with symmetric sqrt-efficiency split, the initial-SoC
equality, and the nonnegativity bounds on all `3N+1` variables. -/
def LPFeasible (capacity_kwh power_kw efficiency initial_soc_pct
    grid_export_limit_kw timestep_hours : ℝ) (solar load : ℕ → ℝ)
    (N : ℕ) (x : ℕ → ℝ) : Prop :=
  (∀ t, t < N → x t ≤ power_kw) ∧
  (∀ t, t < N → x (N + t) ≤ power_kw) ∧
  (∀ t, t ≤ N → x (2 * N + t) ≤ capacity_kwh) ∧
  (∀ t, t < N → x (N + t) - x t ≤ grid_export_limit_kw - (solar t - load t)) ∧
  (∀ t, t < N → x (2 * N + t + 1) - x (2 * N + t)
      - Real.sqrt efficiency * timestep_hours * x t
      + 1 / Real.sqrt efficiency * timestep_hours * x (N + t) = 0) ∧
  x (2 * N) = initial_soc_pct / 100 * capacity_kwh ∧
  (∀ i, i < 3 * N + 1 → 0 ≤ x i)

/-- The objective `c @ x` that linprog minimizes:
`(price[t] + deg) * dt * charge[t] - (price[t] - deg) * dt * discharge[t]`
summed over the horizon (optimization.py lines 115-122). -/
def LPObjective (price : ℕ → ℝ) (degradation_cost_gbp_kwh timestep_hours : ℝ)
    (N : ℕ) (x : ℕ → ℝ) : ℝ :=
  ∑ t ∈ Finset.range N,
    ((price t + degradation_cost_gbp_kwh) * timestep_hours * x t
      - (price t - degradation_cost_gbp_kwh) * timestep_hours * x (N + t))

/-- A point the solver may return: feasible and of minimal objective. -/
def LPOptimal (capacity_kwh power_kw efficiency initial_soc_pct
    grid_export_limit_kw timestep_hours degradation_cost_gbp_kwh : ℝ)
    (solar load price : ℕ → ℝ) (N : ℕ) (x : ℕ → ℝ) : Prop :=
  LPFeasible capacity_kwh power_kw efficiency initial_soc_pct
      grid_export_limit_kw timestep_hours solar load N x ∧
  ∀ y, LPFeasible capacity_kwh power_kw efficiency initial_soc_pct
      grid_export_limit_kw timestep_hours solar load N y →
    LPObjective price degradation_cost_gbp_kwh timestep_hours N x
      ≤ LPObjective price degradation_cost_gbp_kwh timestep_hours N y

/-- The `net_profit_gbp` the post-solve code reports for a solution
vector (optimization.py lines 213-221): positive part of grid export
priced as revenue, negative part as cost, net = revenue - cost. -/
def LPNetProfit (solar load price : ℕ → ℝ) (timestep_hours : ℝ)
    (N : ℕ) (x : ℕ → ℝ) : ℝ :=
  (∑ t ∈ Finset.range N,
      max 0 (solar t - load t + x (N + t) - x t) * price t * timestep_hours)
  - ∑ t ∈ Finset.range N,
      max 0 (-(solar t - load t + x (N + t) - x t)) * price t * timestep_hours

/-- Price vector of the concrete two-step instance used for C4. -/
def cPrice : ℕ → ℝ := fun t => if t = 0 then 1 else 3

/-- Concrete optimal schedule at export limit 1 for the C4 instance:
charge 1 kW in step 0, discharge 1 kW in step 1
(x = [ch0, ch1, dis0, dis1, soc0, soc1, soc2] = [1,0,0,1,0,1,0]). -/
def cSched : ℕ → ℝ :=
  fun i => if i = 0 then 1 else if i = 3 then 1 else if i = 5 then 1 else 0

/-! ## Theorems -/

/-- Claim C1, counterexample: on an asset with negative capacity and
power, efficiency 5 and initial SoC 200 percent, `optimize` does not
raise a ValidationError — the pre-solve phase completes and control
reaches the linprog call. -/
theorem optimize_invalid_asset_reaches_solver :
    (pre_solve ⟨-1, -1, 5, 200⟩ [1] [1] [1] 4 (1/20) (1/4)).isOk = true
    ∧ ¬ pre_solve ⟨-1, -1, 5, 200⟩ [1] [1] [1] 4 (1/20) (1/4)
        = Except.error PyError.validationError := by
  constructor
  · decide
  · intro h
    simp [pre_solve, build_objective, build_grid_bounds, bind, Except.bind,
      pure, Except.pure] at h

/-- Claim C1, amended: `optimize` performs no input validation.
Whenever the load and price series are at least as long as the solar
series, the LP is constructed and the solver is invoked regardless of
the asset's capacity, power, efficiency or initial SoC; and no input
whatsoever makes the pre-solve phase raise a ValidationError (its only
failures are IndexErrors from a load or price series shorter than
solar). -/
theorem optimize_no_validation_error (asset : BatteryAsset)
    (solar load price : List ℚ) (L d dt : ℚ) :
    (solar.length ≤ load.length → solar.length ≤ price.length →
      (pre_solve asset solar load price L d dt).isOk = true)
    ∧ pre_solve asset solar load price L d dt ≠ Except.error PyError.validationError := by
  constructor
  · intro h1 h2
    simp [pre_solve, build_objective, build_grid_bounds, h1, h2,
      Except.isOk, Except.toBool, bind, Except.bind, pure, Except.pure]
  · by_cases h2 : solar.length ≤ price.length <;>
      by_cases h1 : solar.length ≤ load.length <;>
      simp [pre_solve, build_objective, build_grid_bounds, h1, h2,
        bind, Except.bind, pure, Except.pure]

/-- Claim C1, witness: a well-formed call reaches the solver. -/
theorem optimize_no_validation_error_witness :
    (pre_solve ⟨135/10, 5, 9/10, 50⟩ [1, 2] [1, 1] [1, 3] 4 (1/20) (1/4)).isOk = true :=
  (optimize_no_validation_error ⟨135/10, 5, 9/10, 50⟩ [1, 2] [1, 1] [1, 3]
    4 (1/20) (1/4)).1 (by decide) (by decide)

/-- Claim C3, counterexample: on the empty export list,
`check_violations` raises a ValueError (np.max of a zero-size array)
instead of returning a report. -/
theorem check_violations_empty_raises :
    check_violations 4 (3/40) 230 [] 15 = Except.error PyError.valueError := by
  rfl

/-- Claim C3, amended: for every NONEMPTY export list, every timestep
duration and every checker configuration, `check_violations` returns a
structured report and never raises. -/
theorem check_violations_nonempty_ok (grid_limit R_line V_nom e : ℚ)
    (es : List ℚ) (timestep_minutes : ℤ) :
    (check_violations grid_limit R_line V_nom (e :: es) timestep_minutes).isOk = true := by
  simp [check_violations, npMax, Except.isOk, Except.toBool, bind, Except.bind,
    pure, Except.pure]

/-- Claim C2: the SoC trajectory returned by `optimize` has N points,
not N+1 — the slice `x[2*N:2*N+N]` drops the final SoC variable — while
its first point does equal `initial_soc_pct` in percent whenever the
solution satisfies the initial-SoC equality constraint. -/
theorem soc_trajectory_dropped_point (asset : BatteryAsset)
    (solar load price : List ℚ) (dt : ℚ) (x : ℕ → ℚ) (msg : String) (t0 t1 : ℚ)
    (hcap : asset.capacity_kwh ≠ 0)
    (hinit : x (2 * solar.length) = asset.initial_soc_pct / 100 * asset.capacity_kwh) :
    (build_result asset solar load price dt x msg t0 t1).soc_trajectory_pct.length
        = solar.length
    ∧ (0 < solar.length →
        (build_result asset solar load price dt x msg t0 t1).soc_trajectory_pct.headD 0
          = asset.initial_soc_pct) := by
  constructor
  · simp [build_result, soc_slice_pct]
  · intro hN
    obtain ⟨n, hn⟩ : ∃ n, solar.length = n + 1 := ⟨solar.length - 1, by omega⟩
    simp only [build_result, soc_slice_pct, hn, List.range_succ_eq_map,
      List.map_cons, List.headD_cons]
    rw [show 2 * (n + 1) + 0 = 2 * (n + 1) by ring, ← hn, hinit]
    field_simp
    ring

/-- Claim C2, witness: a concrete solved instance with N = 1,
capacity 10 kWh and initial SoC 50 percent. -/
theorem soc_trajectory_dropped_point_witness :
    (build_result ⟨10, 5, 9/10, 50⟩ [0] [0] [0] (1/4)
        (fun i => if i = 2 then 5 else 0) "ok" 0 1).soc_trajectory_pct.length = 1
    ∧ (0 < 1 →
        (build_result ⟨10, 5, 9/10, 50⟩ [0] [0] [0] (1/4)
            (fun i => if i = 2 then 5 else 0) "ok" 0 1).soc_trajectory_pct.headD 0
          = 50) := by
  have h := soc_trajectory_dropped_point ⟨10, 5, 9/10, 50⟩ [0] [0] [0] (1/4)
    (fun i => if i = 2 then 5 else 0) "ok" 0 1 (by norm_num) (by norm_num)
  exact ⟨h.1, fun _ => h.2 (by norm_num)⟩

/-- Claim C5, counterexample: two invocations with identical inputs
and an identical solver response, but different wall-clock readings,
return OptimizationResult values that are not identical — they differ
in the `solve_time_ms` field. -/
theorem result_differs_in_solve_time :
    build_result ⟨10, 5, 9/10, 50⟩ [1] [1] [1] (1/4) (fun _ => 0) "ok" 0 1
      ≠ build_result ⟨10, 5, 9/10, 50⟩ [1] [1] [1] (1/4) (fun _ => 0) "ok" 0 2 := by
  intro h
  have h2 := congrArg OptimizationResult.solve_time_ms h
  simp [build_result] at h2

/-- Claim C5, amended: every field of the result other than
`solve_time_ms` is a deterministic function of the inputs and of the
solver's solution vector and status message (the solver itself is
deterministic per the spec); `solve_time_ms` alone depends on the
wall-clock readings. -/
theorem result_core_deterministic (asset : BatteryAsset)
    (solar load price : List ℚ) (dt : ℚ) (x : ℕ → ℚ) (msg : String)
    (t0 t1 u0 u1 : ℚ) :
    (build_result asset solar load price dt x msg t0 t1).charge_schedule_kw
        = (build_result asset solar load price dt x msg u0 u1).charge_schedule_kw
    ∧ (build_result asset solar load price dt x msg t0 t1).discharge_schedule_kw
        = (build_result asset solar load price dt x msg u0 u1).discharge_schedule_kw
    ∧ (build_result asset solar load price dt x msg t0 t1).soc_trajectory_pct
        = (build_result asset solar load price dt x msg u0 u1).soc_trajectory_pct
    ∧ (build_result asset solar load price dt x msg t0 t1).grid_export_kw
        = (build_result asset solar load price dt x msg u0 u1).grid_export_kw
    ∧ (build_result asset solar load price dt x msg t0 t1).revenue_gbp
        = (build_result asset solar load price dt x msg u0 u1).revenue_gbp
    ∧ (build_result asset solar load price dt x msg t0 t1).cost_gbp
        = (build_result asset solar load price dt x msg u0 u1).cost_gbp
    ∧ (build_result asset solar load price dt x msg t0 t1).net_profit_gbp
        = (build_result asset solar load price dt x msg u0 u1).net_profit_gbp
    ∧ (build_result asset solar load price dt x msg t0 t1).sharpe_ratio
        = (build_result asset solar load price dt x msg u0 u1).sharpe_ratio
    ∧ (build_result asset solar load price dt x msg t0 t1).max_drawdown_pct
        = (build_result asset solar load price dt x msg u0 u1).max_drawdown_pct
    ∧ (build_result asset solar load price dt x msg t0 t1).utilization_factor
        = (build_result asset solar load price dt x msg u0 u1).utilization_factor
    ∧ (build_result asset solar load price dt x msg t0 t1).solver_status
        = (build_result asset solar load price dt x msg u0 u1).solver_status :=
  ⟨rfl, rfl, rfl, rfl, rfl, rfl, rfl, rfl, rfl, rfl, rfl⟩

/-- Claim C9: the `utilization_factor` reported by `optimize` coincides
with `BatteryDegradationModel.calculate_cycle_count` applied to the
same discharge schedule and timestep duration, when the degradation
model is configured with the asset's capacity: both compute
`sum(discharge) * dt / capacity`. -/
theorem utilization_eq_cycle_count (asset : BatteryAsset)
    (solar load price : List ℚ) (dt : ℚ) (x : ℕ → ℚ) (msg : String) (t0 t1 : ℚ) :
    (build_result asset solar load price dt x msg t0 t1).utilization_factor
      = calculate_cycle_count asset.capacity_kwh
          ((List.range solar.length).map (fun t => x (solar.length + t))) dt := rfl

/-- The population variance of a list of rationals is nonnegative. -/
theorem np_var_nonneg (l : List ℚ) : 0 ≤ np_var l := by
  unfold np_var
  apply div_nonneg
  · apply List.sum_nonneg
    intro a ha
    obtain ⟨x, _, rfl⟩ := List.mem_map.mp ha
    positivity
  · exact_mod_cast Nat.zero_le _

/-- np.std of a series vanishes exactly when its variance does. -/
theorem np_std_eq_zero_iff (l : List ℚ) : np_std l = 0 ↔ np_var l = 0 := by
  unfold np_std
  rw [Real.sqrt_eq_zero']
  constructor
  · intro h
    have h2 : (0 : ℝ) ≤ (np_var l : ℝ) := by exact_mod_cast np_var_nonneg l
    exact_mod_cast le_antisymm h h2
  · intro h
    rw [h]
    simp

/-- A constant series has zero variance. -/
theorem np_var_of_const (l : List ℚ) (c : ℚ) (h : ∀ x ∈ l, x = c) :
    np_var l = 0 := by
  cases l with
  | nil => simp [np_var, np_mean]
  | cons a as =>
    have hmean : np_mean (a :: as) = c := by
      unfold np_mean
      rw [List.sum_eq_card_nsmul (a :: as) c h]
      have hlen : ((a :: as).length : ℚ) ≠ 0 := by
        have h0 : (0 : ℚ) ≤ (as.length : ℚ) := Nat.cast_nonneg _
        simp only [List.length_cons]
        push_cast
        linarith
      field_simp [nsmul_eq_mul]
    unfold np_var
    rw [hmean]
    have hz : ((a :: as).map (fun x => (x - c) ^ 2)).sum = 0 := by
      apply List.sum_eq_zero
      intro y hy
      obtain ⟨x, hx, rfl⟩ := List.mem_map.mp hy
      rw [h x hx]
      ring
    rw [hz]
    simp

/-- Claim C6: the reported Sharpe ratio is
`mean(discharge*price) / std(discharge*price)` whenever the standard
deviation of the product series is nonzero, and it is exactly 0 — with
no division error — when the standard deviation is zero, in particular
for every constant product series. -/
theorem sharpe_spec (discharge price : List ℚ)
    (h : discharge.length = price.length) :
    (np_std (List.zipWith (fun a b => a * b) discharge price) = 0 →
      calculate_sharpe discharge price = 0)
    ∧ (np_std (List.zipWith (fun a b => a * b) discharge price) ≠ 0 →
      calculate_sharpe discharge price
        = (np_mean (List.zipWith (fun a b => a * b) discharge price) : ℝ)
          / np_std (List.zipWith (fun a b => a * b) discharge price))
    ∧ ∀ c : ℚ,
        (∀ r ∈ List.zipWith (fun a b => a * b) discharge price, r = c) →
        calculate_sharpe discharge price = 0 := by
  have hcase : ∀ hstd : np_std (List.zipWith (fun a b => a * b) discharge price) = 0,
      calculate_sharpe discharge price = 0 := by
    intro hstd
    have hvar := (np_std_eq_zero_iff _).mp hstd
    unfold calculate_sharpe
    simp [hvar]
  refine ⟨hcase, ?_, ?_⟩
  · intro hstd
    have hvar : ¬ np_var (List.zipWith (fun a b => a * b) discharge price) = 0 :=
      fun hv => hstd ((np_std_eq_zero_iff _).mpr hv)
    have hlen : ¬ (List.zipWith (fun a b => a * b) discharge price).length = 0 := by
      intro hl
      apply hvar
      rw [List.length_eq_zero.mp hl]
      simp [np_var, np_mean]
    unfold calculate_sharpe
    simp only [hvar, hlen, or_self, if_false]
  · intro c hc
    exact hcase ((np_std_eq_zero_iff _).mpr (np_var_of_const _ c hc))

/-- Claim C6, witness: a single-point product series has zero standard
deviation and Sharpe ratio 0. -/
theorem sharpe_spec_witness :
    np_std (List.zipWith (fun a b => a * b) [(2 : ℚ)] [(3 : ℚ)]) = 0
    ∧ calculate_sharpe [(2 : ℚ)] [(3 : ℚ)] = 0 := by
  have hstd : np_std (List.zipWith (fun a b => a * b) [(2 : ℚ)] [(3 : ℚ)]) = 0 := by
    have hv : np_var (List.zipWith (fun a b => a * b) [(2 : ℚ)] [(3 : ℚ)]) = 0 := by
      norm_num [np_var, np_mean]
    unfold np_std
    rw [hv]
    simp
  exact ⟨hstd, (sharpe_spec [(2 : ℚ)] [(3 : ℚ)] rfl).1 hstd⟩

/-- Claim C8: the degradation cost equals
`replacement_cost * (1 - retention) / warranty_cycles` times the sum of
squared per-timestep depth of discharge `(discharge*dt/capacity)^2`;
and for a fixed total discharged energy, concentrating the discharge of
two timesteps into one never decreases the cost. -/
theorem degradation_cost_spec (cap wc rc crp dt a b : ℚ) (rest : List ℚ)
    (ha : 0 ≤ a) (hb : 0 ≤ b) (hdt : 0 ≤ dt) (hcap : 0 ≤ cap)
    (hcpc : 0 ≤ degradation_cost_per_cycle rc crp wc) :
    (∀ xs : List ℚ, calculate_degradation_cost cap wc rc crp xs dt
        = rc * (1 - crp / 100) / wc
          * ((xs.map (fun k => (k * dt / cap) ^ 2)).sum))
    ∧ calculate_degradation_cost cap wc rc crp (a :: b :: rest) dt
        ≤ calculate_degradation_cost cap wc rc crp ((a + b) :: 0 :: rest) dt := by
  constructor
  · intro xs
    unfold calculate_degradation_cost degradation_cost_per_cycle
    ring
  · unfold calculate_degradation_cost
    apply mul_le_mul_of_nonneg_right _ hcpc
    simp only [List.map_cons, List.sum_cons]
    have hu : 0 ≤ a * dt / cap := by positivity
    have hv : 0 ≤ b * dt / cap := by positivity
    have hsplit : (a + b) * dt / cap = a * dt / cap + b * dt / cap := by
      ring
    rw [hsplit]
    nlinarith [mul_nonneg hu hv]

/-- Claim C8, witness: Powerwall-like parameters, two 1 kW discharge
steps merged into a single 2 kW step. -/
theorem degradation_cost_spec_witness :
    calculate_degradation_cost (27/2) 3650 7000 70 [1, 1] (1/4)
      ≤ calculate_degradation_cost (27/2) 3650 7000 70 [2, 0] (1/4) := by
  have h := degradation_cost_spec (27/2) 3650 7000 70 (1/4) 1 1 []
    (by norm_num) (by norm_num) (by norm_num) (by norm_num)
    (by norm_num [degradation_cost_per_cycle])
  have h2 := h.2
  norm_num at h2 ⊢
  exact h2

/-- Violation records carry timesteps at least as large as the loop
index they were built from. -/
theorem le_timestep_of_mem_buildViolations (gL R V : ℚ) (tm : ℤ) :
    ∀ (xs : List ℚ) (t0 : ℕ) (v : GridViolation),
      v ∈ buildViolations gL R V tm t0 xs → t0 ≤ v.timestep := by
  intro xs
  induction xs with
  | nil => intro t0 v hv; simp [buildViolations] at hv
  | cons e es ih =>
    intro t0 v hv
    unfold buildViolations at hv
    rcases List.mem_append.mp hv with hmem | hmem
    · by_cases he : e > gL
      · rw [if_pos he] at hmem
        simp only [List.mem_singleton] at hmem
        subst hmem
        simp [mkGridViolation]
      · rw [if_neg he] at hmem
        simp at hmem
    · exact Nat.le_of_succ_le (ih (t0 + 1) v hmem)

/-- Every emitted violation comes from a list position whose export
exceeds the limit, and is exactly the record the loop body builds. -/
theorem mem_buildViolations_spec (gL R V : ℚ) (tm : ℤ) :
    ∀ (xs : List ℚ) (t0 : ℕ) (v : GridViolation),
      v ∈ buildViolations gL R V tm t0 xs →
      ∃ i, i < xs.length ∧ xs.getD i 0 > gL
        ∧ v = mkGridViolation gL R V tm (t0 + i) (xs.getD i 0) := by
  intro xs
  induction xs with
  | nil => intro t0 v hv; simp [buildViolations] at hv
  | cons e es ih =>
    intro t0 v hv
    unfold buildViolations at hv
    rcases List.mem_append.mp hv with hmem | hmem
    · by_cases he : e > gL
      · rw [if_pos he] at hmem
        simp only [List.mem_singleton] at hmem
        exact ⟨0, by simp, by simpa using he, by simpa using hmem⟩
      · rw [if_neg he] at hmem
        simp at hmem
    · obtain ⟨i, hi, hgt, hveq⟩ := ih (t0 + 1) v hmem
      refine ⟨i + 1, by simpa using hi, by simpa using hgt, ?_⟩
      rw [hveq, show t0 + 1 + i = t0 + (i + 1) by omega]
      simp

/-- Exactly one violation is emitted for a position above the limit,
none otherwise. -/
theorem countP_buildViolations (gL R V : ℚ) (tm : ℤ) :
    ∀ (xs : List ℚ) (t0 s : ℕ), t0 ≤ s →
      (buildViolations gL R V tm t0 xs).countP (fun v => v.timestep == s)
        = if s - t0 < xs.length ∧ xs.getD (s - t0) 0 > gL then 1 else 0 := by
  intro xs
  induction xs with
  | nil =>
    intro t0 s hle
    simp [buildViolations]
  | cons e es ih =>
    intro t0 s hle
    unfold buildViolations
    rw [List.countP_append]
    rcases eq_or_lt_of_le hle with heq | hlt
    · subst heq
      have htail : (buildViolations gL R V tm (t0 + 1) es).countP
          (fun v => v.timestep == t0) = 0 := by
        rw [List.countP_eq_zero]
        intro v hv
        have hts := le_timestep_of_mem_buildViolations gL R V tm es (t0 + 1) v hv
        simp only [beq_iff_eq]
        omega
      rw [htail]
      by_cases he : e > gL
      · rw [if_pos he]
        simp [he, mkGridViolation]
      · rw [if_neg he]
        simp [he]
    · have hhead : (if e > gL then [mkGridViolation gL R V tm t0 e] else []).countP
          (fun v => v.timestep == s) = 0 := by
        by_cases he : e > gL
        · rw [if_pos he]
          simp only [List.countP_cons, List.countP_nil, mkGridViolation, beq_iff_eq]
          simp only [Nat.zero_add]
          rw [if_neg (by omega)]
        · rw [if_neg he]
          simp
      rw [hhead, ih (t0 + 1) s (Nat.succ_le_of_lt hlt)]
      have harith : s - t0 = (s - (t0 + 1)) + 1 := by omega
      rw [harith]
      simp only [List.getD_cons_succ, List.length_cons, Nat.add_lt_add_iff_right,
        Nat.zero_add]

/-- If no export exceeds the limit, no violation is emitted. -/
theorem buildViolations_eq_nil (gL R V : ℚ) (tm : ℤ) (xs : List ℚ)
    (h : ∀ x ∈ xs, ¬ x > gL) :
    ∀ t0, buildViolations gL R V tm t0 xs = [] := by
  induction xs with
  | nil => intro t0; rfl
  | cons e es ih =>
    intro t0
    unfold buildViolations
    rw [if_neg (h e (by simp))]
    simp only [List.nil_append]
    exact ih (fun x hx => h x (by simp [hx])) (t0 + 1)

/-- Folding max over elements below the seed returns the seed. -/
theorem foldl_max_eq_of_le (l : List ℚ) :
    ∀ b : ℚ, (∀ a ∈ l, a ≤ b) → l.foldl max b = b := by
  induction l with
  | nil => intro b _; rfl
  | cons x xs ih =>
    intro b h
    simp only [List.foldl_cons]
    rw [max_eq_left (h x (by simp))]
    exact ih b (fun a ha => h a (by simp [ha]))

/-- Claim C7: `check_violations` emits the loop-built violation list;
every violation sits at a position whose export exceeds the limit, with
`excess_kw = export - limit` and severity `critical` exactly when the
excess exceeds 0.5 kW; each over-limit position yields exactly one
violation and each in-limit position none; and on `[1,3,5,2]` with
limit 4 the checker returns exactly the single critical violation at
index 2 with excess 1. -/
theorem violations_characterization (gL R V : ℚ) (tm : ℤ) (e : ℚ) (es : List ℚ) :
    ((check_violations gL R V (e :: es) tm).map GridReport.violations
        = Except.ok (buildViolations gL R V tm 0 (e :: es)))
    ∧ (∀ v ∈ buildViolations gL R V tm 0 (e :: es),
        v.timestep < (e :: es).length
        ∧ (e :: es).getD v.timestep 0 > gL
        ∧ v.excess_kw = (e :: es).getD v.timestep 0 - gL
        ∧ v.severity = if v.excess_kw > 1/2 then "critical" else "warning")
    ∧ (∀ t : ℕ, (buildViolations gL R V tm 0 (e :: es)).countP
          (fun v => v.timestep == t)
        = if t < (e :: es).length ∧ (e :: es).getD t 0 > gL then 1 else 0)
    ∧ ((check_violations 4 (3/40) 230 [1, 3, 5, 2] 15).map GridReport.violations
          = Except.ok [mkGridViolation 4 (3/40) 230 15 2 5]
        ∧ (mkGridViolation 4 (3/40) 230 15 2 5).excess_kw = 1
        ∧ (mkGridViolation 4 (3/40) 230 15 2 5).severity = "critical") := by
  refine ⟨?_, ?_, ?_, ?_, ?_, ?_⟩
  · simp [check_violations, npMax, bind, Except.bind, pure, Except.pure, Except.map]
  · intro v hv
    obtain ⟨i, hi, hgt, hveq⟩ := mem_buildViolations_spec gL R V tm (e :: es) 0 v hv
    subst hveq
    refine ⟨by simpa [mkGridViolation] using hi, by simpa [mkGridViolation] using hgt,
      ?_, ?_⟩ <;> simp [mkGridViolation]
  · intro t
    rw [countP_buildViolations gL R V tm (e :: es) 0 t (Nat.zero_le t)]
    simp
  · simp only [check_violations, List.map_cons, npMax, bind, Except.bind,
      pure, Except.pure, Except.map]
    norm_num [buildViolations]
  · norm_num [mkGridViolation]
  · norm_num [mkGridViolation]

/-- Claim C7, witness: the characterization applied at the concrete
scenario, exactly one violation at timestep 2. -/
theorem violations_characterization_witness :
    (buildViolations 4 (3/40) 230 15 0 [1, 3, 5, 2]).countP
        (fun v => v.timestep == 2)
      = if 2 < ([1, 3, 5, 2] : List ℚ).length ∧ ([1, 3, 5, 2] : List ℚ).getD 2 0 > 4
        then 1 else 0 :=
  (violations_characterization 4 (3/40) 230 15 1 [3, 5, 2]).2.2.1 2

/-- Claim C10: `times_at_limit` counts the timesteps whose export,
floored at zero, strictly exceeds 95 percent of the limit; and an
all-import (all-negative) export series yields zero peak voltage rise,
zero grid stress and no violations. -/
theorem times_at_limit_and_all_import (gL R V : ℚ) (tm : ℤ) (e : ℚ) (es : List ℚ) :
    ((check_violations gL R V (e :: es) tm).map GridReport.times_at_limit
        = Except.ok ((e :: es).countP (fun x => decide (max 0 x > gL * (95/100)))))
    ∧ ((∀ x ∈ e :: es, x < 0) → 0 < gL → 0 < V →
        (check_violations gL R V (e :: es) tm).map
            (fun r => (r.max_voltage_rise_pct, r.peak_grid_stress, r.violations))
          = Except.ok (0, 0, [])) := by
  constructor
  · simp only [check_violations, List.map_cons, npMax, bind, Except.bind,
      pure, Except.pure, Except.map]
    rw [← List.map_cons (fun x => max 0 x) e es, List.countP_map]
    rfl
  · intro hneg hgL hV
    have hmax0 : ∀ x ∈ e :: es, max 0 x = 0 :=
      fun x hx => max_eq_left (le_of_lt (hneg x hx))
    have hhead : max 0 e = 0 := hmax0 e (by simp)
    have hclip : npClip 0 0 1 = 0 := by
      unfold npClip
      rw [max_self, min_eq_left (by norm_num : (0 : ℚ) ≤ 1)]
    simp only [check_violations, List.map_cons, npMax, bind, Except.bind,
      pure, Except.pure, Except.map, Except.ok.injEq, Prod.mk.injEq]
    refine ⟨?_, ?_, ?_⟩
    · rw [hhead, show (0 : ℚ) * 1000 * R / V / V * 100 = 0 by ring]
      apply foldl_max_eq_of_le
      intro a ha
      simp only [List.map_map, List.mem_map, Function.comp] at ha
      obtain ⟨x, hx, rfl⟩ := ha
      rw [hmax0 x (by simp [hx]), show (0 : ℚ) * 1000 * R / V / V * 100 = 0 by ring]
    · rw [hhead, zero_div, hclip]
      apply foldl_max_eq_of_le
      intro a ha
      simp only [List.map_map, List.mem_map, Function.comp] at ha
      obtain ⟨x, hx, rfl⟩ := ha
      rw [hmax0 x (by simp [hx]), zero_div, hclip]
    · exact buildViolations_eq_nil gL R V tm (e :: es)
        (fun x hx => not_lt.mpr (by have := hneg x hx; linarith)) 0

/-- Claim C10, witness: an all-import two-step series under the default
checker configuration. -/
theorem times_at_limit_and_all_import_witness :
    ((check_violations 4 (3/40) 230 [-1, -2] 15).map GridReport.times_at_limit
        = Except.ok (([-1, -2] : List ℚ).countP
            (fun x => decide (max 0 x > 4 * (95/100)))))
    ∧ (check_violations 4 (3/40) 230 [-1, -2] 15).map
          (fun r => (r.max_voltage_rise_pct, r.peak_grid_stress, r.violations))
        = Except.ok (0, 0, []) := by
  have h := times_at_limit_and_all_import 4 (3/40) 230 15 (-1) [-2]
  refine ⟨h.1, h.2 ?_ (by norm_num) (by norm_num)⟩
  intro x hx
  simp only [List.mem_cons, List.mem_singleton, List.not_mem_nil, or_false] at hx
  rcases hx with rfl | rfl <;> norm_num

/-- Raising the export limit only relaxes the grid constraint, so
feasibility is preserved. -/
theorem LPFeasible_mono (cap P eff I L1 L2 dt : ℝ) (solar load : ℕ → ℝ)
    (N : ℕ) (x : ℕ → ℝ) (hL : L1 ≤ L2)
    (h : LPFeasible cap P eff I L1 dt solar load N x) :
    LPFeasible cap P eff I L2 dt solar load N x := by
  obtain ⟨h1, h2, h3, h4, h5, h6, h7⟩ := h
  exact ⟨h1, h2, h3, fun t ht => le_trans (h4 t ht) (by linarith), h5, h6, h7⟩

/-- Splitting a real into positive and negative parts recovers it. -/
theorem max_part_sub (a : ℝ) : max 0 a - max 0 (-a) = a := by
  rcases le_total 0 a with h | h
  · rw [max_eq_right h, max_eq_left (by linarith : -a ≤ 0)]
    ring
  · rw [max_eq_left h, max_eq_right (by linarith : (0 : ℝ) ≤ -a)]
    ring

/-- With zero degradation cost, the reported net profit is the
exogenous solar-minus-load revenue minus the LP objective. -/
theorem LPNetProfit_eq_objective (solar load price : ℕ → ℝ) (dt : ℝ)
    (N : ℕ) (x : ℕ → ℝ) :
    LPNetProfit solar load price dt N x
      = (∑ t ∈ Finset.range N, (solar t - load t) * price t * dt)
        - LPObjective price 0 dt N x := by
  unfold LPNetProfit LPObjective
  rw [← Finset.sum_sub_distrib, ← Finset.sum_sub_distrib]
  apply Finset.sum_congr rfl
  intro t _
  have hm := max_part_sub (solar t - load t + x (N + t) - x t)
  have hexpand : max 0 (solar t - load t + x (N + t) - x t) * price t * dt
      - max 0 (-(solar t - load t + x (N + t) - x t)) * price t * dt
      = (max 0 (solar t - load t + x (N + t) - x t)
          - max 0 (-(solar t - load t + x (N + t) - x t))) * price t * dt := by
    ring
  rw [hexpand, hm]
  ring

/-- Claim C4, amended: raising the grid export limit never worsens the
optimal value of the objective the LP minimizes, and with zero
degradation cost it never decreases the reported net profit either.
(With a positive degradation cost the reported net profit can decrease
across equally optimal solutions; see the counterexample.) -/
theorem lp_objective_monotone_in_limit (cap P eff I L1 L2 dt d : ℝ)
    (solar load price : ℕ → ℝ) (N : ℕ) (x1 x2 : ℕ → ℝ) (hL : L1 ≤ L2)
    (h1 : LPOptimal cap P eff I L1 dt d solar load price N x1)
    (h2 : LPOptimal cap P eff I L2 dt d solar load price N x2) :
    LPObjective price d dt N x2 ≤ LPObjective price d dt N x1
    ∧ (d = 0 → LPNetProfit solar load price dt N x1
        ≤ LPNetProfit solar load price dt N x2) := by
  have hfeas : LPFeasible cap P eff I L2 dt solar load N x1 :=
    LPFeasible_mono cap P eff I L1 L2 dt solar load N x1 hL h1.1
  have hobj := h2.2 x1 hfeas
  refine ⟨hobj, fun hd => ?_⟩
  subst hd
  rw [LPNetProfit_eq_objective, LPNetProfit_eq_objective]
  linarith

/-- Claim C4, witness: the monotonicity theorem applied to a trivial
one-step instance whose zero schedule is optimal at both limits. -/
theorem lp_objective_monotone_in_limit_witness :
    LPOptimal 1 1 1 0 0 1 0 (fun _ => 0) (fun _ => 0) (fun _ => 0) 1 (fun _ => 0)
    ∧ LPObjective (fun _ => 0) 0 1 1 (fun _ => 0)
        ≤ LPObjective (fun _ => 0) 0 1 1 (fun _ => 0)
    ∧ ((0 : ℝ) = 0 → LPNetProfit (fun _ => 0) (fun _ => 0) (fun _ => 0) 1 1 (fun _ => 0)
        ≤ LPNetProfit (fun _ => 0) (fun _ => 0) (fun _ => 0) 1 1 (fun _ => 0)) := by
  have hfeas : LPFeasible 1 1 1 0 0 1 (fun _ => 0) (fun _ => 0) 1 (fun _ => 0) := by
    refine ⟨fun t ht => by norm_num, fun t ht => by norm_num, fun t ht => by norm_num,
      fun t ht => by norm_num, fun t ht => by simp, by norm_num, fun i hi => le_rfl⟩
  have hopt : LPOptimal 1 1 1 0 0 1 0 (fun _ => 0) (fun _ => 0) (fun _ => 0) 1 (fun _ => 0) := by
    refine ⟨hfeas, fun y hy => ?_⟩
    simp [LPObjective]
  have h := lp_objective_monotone_in_limit 1 1 1 0 0 0 1 0
    (fun _ => 0) (fun _ => 0) (fun _ => 0) 1 (fun _ => 0) (fun _ => 0) le_rfl hopt hopt
  exact ⟨hopt, h.1, h.2⟩

/-- Any feasible point of the C4 instance has nonnegative objective:
with prices (1, 3) and degradation cost 1, no schedule beats doing
nothing. -/
theorem cInstance_obj_nonneg (L : ℝ) (y : ℕ → ℝ)
    (hy : LPFeasible 10 10 1 0 L 1 (fun _ => 0) (fun _ => 0) 2 y) :
    0 ≤ LPObjective cPrice 1 1 2 y := by
  obtain ⟨hP, hPd, hcap, hgrid, hdyn, hinit, hnn⟩ := hy
  have d0 := hdyn 0 (by norm_num)
  have d1 := hdyn 1 (by norm_num)
  have n1 := hnn 1 (by norm_num)
  have n2 := hnn 2 (by norm_num)
  have n6 := hnn 6 (by norm_num)
  norm_num [Real.sqrt_one] at d0 d1 hinit
  unfold LPObjective
  rw [Finset.sum_range_succ, Finset.sum_range_succ, Finset.sum_range_zero]
  norm_num [cPrice]
  linarith

/-- The concrete limit-1 schedule of the C4 instance is feasible. -/
theorem cSched_feasible : LPFeasible 10 10 1 0 1 1 (fun _ => 0) (fun _ => 0) 2 cSched := by
  refine ⟨?_, ?_, ?_, ?_, ?_, ?_, ?_⟩
  · intro t ht; interval_cases t <;> norm_num [cSched]
  · intro t ht; interval_cases t <;> norm_num [cSched]
  · intro t ht; interval_cases t <;> norm_num [cSched]
  · intro t ht; interval_cases t <;> norm_num [cSched]
  · intro t ht; interval_cases t <;> norm_num [cSched, Real.sqrt_one]
  · norm_num [cSched]
  · intro i hi; interval_cases i <;> norm_num [cSched]

/-- The zero schedule of the C4 instance is feasible at limit 2. -/
theorem zero_sched_feasible_L2 :
    LPFeasible 10 10 1 0 2 1 (fun _ => 0) (fun _ => 0) 2 (fun _ => 0) := by
  refine ⟨fun t ht => by norm_num, fun t ht => by norm_num, fun t ht => by norm_num,
    fun t ht => by norm_num, fun t ht => by simp, by norm_num, fun i hi => le_rfl⟩

/-- Reported net profit of the concrete limit-1 schedule. -/
theorem netProfit_cSched :
    LPNetProfit (fun _ => 0) (fun _ => 0) cPrice 1 2 cSched = 2 := by
  unfold LPNetProfit
  rw [Finset.sum_range_succ, Finset.sum_range_succ, Finset.sum_range_zero,
    Finset.sum_range_succ, Finset.sum_range_succ, Finset.sum_range_zero]
  norm_num [cPrice, cSched]

/-- Reported net profit of the zero schedule. -/
theorem netProfit_zero_sched :
    LPNetProfit (fun _ => 0) (fun _ => 0) cPrice 1 2 (fun _ => 0) = 0 := by
  unfold LPNetProfit
  rw [Finset.sum_range_succ, Finset.sum_range_succ, Finset.sum_range_zero,
    Finset.sum_range_succ, Finset.sum_range_succ, Finset.sum_range_zero]
  norm_num

/-- Claim C4, counterexample: a two-step instance (prices 1 then 3,
degradation cost 1, no solar or load, empty battery) in which the
displayed schedule is optimal at export limit 1 with reported net
profit 2, while the zero schedule is optimal at the larger export
limit 2 with reported net profit 0: raising the limit admits an
optimal solution with strictly smaller net_profit_gbp. -/
theorem net_profit_not_monotone_in_limit :
    (1 : ℝ) ≤ 2
    ∧ LPOptimal 10 10 1 0 1 1 1 (fun _ => 0) (fun _ => 0) cPrice 2 cSched
    ∧ LPOptimal 10 10 1 0 2 1 1 (fun _ => 0) (fun _ => 0) cPrice 2 (fun _ => 0)
    ∧ LPNetProfit (fun _ => 0) (fun _ => 0) cPrice 1 2 (fun _ => 0)
        < LPNetProfit (fun _ => 0) (fun _ => 0) cPrice 1 2 cSched := by
  have hobj1 : LPObjective cPrice 1 1 2 cSched = 0 := by
    unfold LPObjective
    rw [Finset.sum_range_succ, Finset.sum_range_succ, Finset.sum_range_zero]
    norm_num [cPrice, cSched]
  have hobj0 : LPObjective cPrice 1 1 2 (fun _ => 0) = 0 := by
    unfold LPObjective
    rw [Finset.sum_range_succ, Finset.sum_range_succ, Finset.sum_range_zero]
    norm_num
  refine ⟨by norm_num, ⟨cSched_feasible, fun y hy => ?_⟩,
    ⟨zero_sched_feasible_L2, fun y hy => ?_⟩, ?_⟩
  · rw [hobj1]
    exact cInstance_obj_nonneg 1 y hy
  · rw [hobj0]
    exact cInstance_obj_nonneg 2 y hy
  · rw [netProfit_cSched, netProfit_zero_sched]
    norm_num

end SolarPal


